import Mathlib

/-!
Shallow embedding of the client-side session/connection engine of the
AI-GroupChat frontend (`src/routes/+page.svelte`): the inbound event
classifier (`ws.onmessage`), the session state machine driven by System
notices, the connection close handler (`ws.onclose`), the outbound command
dispatcher (`sendMessageToWs` and the four `handle*` intents), and the
`parseMarkdown` content renderer.

JavaScript strings are modelled as Lean `String`; the handful of string
primitives the source uses (`toLowerCase`, `includes`, `trim`-blankness,
single-character global regex `replace`) are modelled at the character-list
level so that they compute by kernel reduction.  The JS `Set` of thinking
speakers is modelled as a `Finset String`.  Wall-clock reads
(`Date.now()`, `new Date().toISOString()`) are explicit parameters.
-/

/-- One inbound wire envelope, also the durable transcript entry type
(source `interface ChatMessageFromServer`, lines 6-13).  The optional JS
fields `isThinking?` / `isRegenerated?` become `Option Bool`; JS truthiness
of such a field is `·.getD false`. -/
structure ChatMessageFromServer where
  id : String
  speaker : String
  content : String
  timestamp : String
  isThinking : Option Bool := none
  isRegenerated : Option Bool := none
  deriving DecidableEq, Repr

/-- The four-valued session phase (source line 21, the string union
`'idle' | 'automated_debate' | 'user_interaction' | 'summarizing'`). -/
inductive SessionState where
  | idle
  | automated_debate
  | user_interaction
  | summarizing
  deriving DecidableEq, Repr

/-- One selectable persona (source `availablePersonas` entries, lines 54-58). -/
structure Persona where
  id : String
  name : String
  defaultChecked : Bool
  deriving DecidableEq, Repr

/-- Source lines 54-58. -/
def availablePersonas : List Persona :=
  [ { id := "nilm_expert", name := "NILM Expert (Mistral)", defaultChecked := true },
    { id := "data_scientist", name := "Data Scientist (Gemini)", defaultChecked := true },
    { id := "moderator", name := "Debate Moderator (Mistral)", defaultChecked := true } ]

/-- The mutable client state (source lines 16-24 and 59-61).  The
`WebSocket` handle itself is abstracted into the boolean `isConnected`
(set on open/close; `sendMessageToWs` checks `ws.readyState === OPEN`,
which coincides with it). -/
structure ClientState where
  messages : List ChatMessageFromServer
  userInput : String
  debateTopicInput : String
  isConnected : Bool
  currentSessionState : SessionState
  showError : Option String
  thinkingSpeakers : Finset String
  selectedPersonaIds : List String
  deriving DecidableEq

/-- Initial state (source lines 16-24, 59-61): everything empty,
disconnected, phase `idle`, the three default-checked persona ids
selected. -/
def initialState : ClientState where
  messages := []
  userInput := ""
  debateTopicInput := ""
  isConnected := false
  currentSessionState := SessionState.idle
  showError := none
  thinkingSpeakers := ∅
  selectedPersonaIds := (availablePersonas.filter (·.defaultChecked)).map (·.id)

/-- Character-level model of JS `String.prototype.includes`:
`includesList pat l` is true iff `pat` occurs contiguously inside `l`. -/
def includesList (pat : List Char) : List Char → Bool
  | [] => pat.isEmpty
  | c :: t => pat.isPrefixOf (c :: t) || includesList pat t

/-- Model of the JS call `s.includes(pat)`. -/
def strIncludes (s pat : String) : Bool := includesList pat.data s.data

/-- Model of `s.toLowerCase()` (ASCII letters, via `Char.toLower`). -/
def lowerStr (s : String) : String := ⟨s.data.map Char.toLower⟩

/-- Model of the JS blank test `!s.trim()`: true iff every character of `s`
is whitespace (equivalently, `s.trim()` is the empty string). -/
def isBlank (s : String) : Bool := s.data.all Char.isWhitespace

/-- Outbound wire command `{ type, payload }` (source §6 / the six
`sendMessageToWs` call sites). -/
inductive OutCommand where
  | start_debate (topic : String) (persona_ids : List String)
  | user_query (content : String)
  | user_interjection (content : String)
  | regenerate_last_ai_turn
  | seek_convergence
  | stop_debate
  deriving DecidableEq, Repr

/-- Result of a dispatcher action: the new client state, the command passed
to `sendMessageToWs` (if the handler reached a send call at all), and the
command actually written to the open socket (only when connected). -/
structure SendResult where
  state : ClientState
  attempted : Option OutCommand
  wire : Option OutCommand
  deriving DecidableEq

/-- Source lines 143-150: `sendMessageToWs(type, payload)` serializes the
command onto the wire when the socket is open (clearing the error banner),
otherwise surfaces a local error and sends nothing. -/
def sendMessageToWs (s : ClientState) (cmd : OutCommand) : SendResult :=
  if s.isConnected then
    { state := { s with showError := none }, attempted := some cmd, wire := some cmd }
  else
    { state := { s with showError := some "Not connected. Please wait or check connection." },
      attempted := some cmd, wire := none }

/-- Source lines 93-124, `ws.onmessage` on a successfully decoded envelope:
a thinking envelope adds its speaker to `thinkingSpeakers`; a durable one
removes the speaker, appends the message, and — when the speaker is
`"System"` — runs the lowercased content through the ordered
first-match trigger chain (lines 103-115), the last trigger also clearing
`debateTopicInput`. -/
def wsOnMessage (s : ClientState) (message : ChatMessageFromServer) : ClientState :=
  if message.isThinking.getD false then
    { s with thinkingSpeakers := insert message.speaker s.thinkingSpeakers }
  else
    let s1 := { s with
      thinkingSpeakers := s.thinkingSpeakers.erase message.speaker,
      messages := s.messages ++ [message] }
    if message.speaker = "System" then
      let lowerContent := lowerStr message.content
      if strIncludes lowerContent "debate started" then
        { s1 with currentSessionState := SessionState.automated_debate }
      else if strIncludes lowerContent "automated debate phase complete" then
        { s1 with currentSessionState := SessionState.user_interaction }
      else if strIncludes lowerContent "generating final summary" then
        { s1 with currentSessionState := SessionState.summarizing }
      else if strIncludes lowerContent "debate concluded" ||
              strIncludes lowerContent "session ended" ||
              strIncludes lowerContent "session stopped" then
        { s1 with currentSessionState := SessionState.idle, debateTopicInput := "" }
      else s1
    else s1

/-- Source lines 126-134, `ws.onclose`: mark disconnected, clear the
thinking set, surface the reconnect banner, and schedule `connectWebSocket`
after a fixed 3000 ms (`setTimeout(connectWebSocket, 3000)`); the second
component is that delay.  The phase is deliberately not touched. -/
def wsOnClose (s : ClientState) : ClientState × Nat :=
  ({ s with
      isConnected := false,
      thinkingSpeakers := ∅,
      showError := some "Disconnected. Reconnecting..." }, 3000)

/-- Source lines 152-168, `handleStartDebate`: validate topic and persona
selection, then optimistically clear transcript and thinking set and pass a
`start_debate` command to `sendMessageToWs`. -/
def handleStartDebate (s : ClientState) : SendResult :=
  if isBlank s.debateTopicInput then
    { state := { s with showError := some "Please enter a debate topic." },
      attempted := none, wire := none }
  else if s.selectedPersonaIds.length < 1 then
    { state := { s with showError := some "Please select at least one persona." },
      attempted := none, wire := none }
  else
    sendMessageToWs { s with messages := [], thinkingSpeakers := ∅ }
      (OutCommand.start_debate s.debateTopicInput s.selectedPersonaIds)

/-- The locally synthesized user message of `handleSendMessage`
(source lines 181-186): id `` `local_${Date.now()}` ``, speaker `"User"`. -/
def localUserMessage (content : String) (now : Nat) (nowIso : String) :
    ChatMessageFromServer :=
  { id := "local_" ++ Nat.repr now, speaker := "User",
    content := content, timestamp := nowIso }

/-- Source lines 170-191, `handleSendMessage`: silently return on blank
input; reject with an error outside the two active phases; otherwise pass a
`user_query` (in `user_interaction`) or `user_interjection` (in
`automated_debate`) to `sendMessageToWs`, append the locally synthesized
user message, and clear the input box.  `now`/`nowIso` stand for
`Date.now()` and `new Date().toISOString()`. -/
def handleSendMessage (s : ClientState) (now : Nat) (nowIso : String) : SendResult :=
  if isBlank s.userInput then
    { state := s, attempted := none, wire := none }
  else if s.currentSessionState ≠ SessionState.automated_debate ∧
          s.currentSessionState ≠ SessionState.user_interaction then
    { state := { s with showError := some "Cannot send message when not in active debate or Q&A." },
      attempted := none, wire := none }
  else
    let messageType :=
      if s.currentSessionState = SessionState.user_interaction then
        OutCommand.user_query s.userInput
      else
        OutCommand.user_interjection s.userInput
    let r := sendMessageToWs s messageType
    let userMsg := localUserMessage s.userInput now nowIso
    { r with state := { r.state with
        messages := r.state.messages ++ [userMsg],
        userInput := "" } }

/-- Source lines 193-196, `handleRegenerate`: guard only on the phase, then
pass `regenerate_last_ai_turn` to `sendMessageToWs`. -/
def handleRegenerate (s : ClientState) : SendResult :=
  if s.currentSessionState ≠ SessionState.automated_debate ∧
     s.currentSessionState ≠ SessionState.user_interaction then
    { state := s, attempted := none, wire := none }
  else
    sendMessageToWs s OutCommand.regenerate_last_ai_turn

/-- Source lines 198-205, `handleEarlyPauseOrSummarize`: `seek_convergence`
during the automated debate, the literal `/end` user query during user
interaction, otherwise nothing. -/
def handleEarlyPauseOrSummarize (s : ClientState) : SendResult :=
  if s.currentSessionState = SessionState.automated_debate then
    sendMessageToWs s OutCommand.seek_convergence
  else if s.currentSessionState = SessionState.user_interaction then
    sendMessageToWs s (OutCommand.user_query "/end")
  else
    { state := s, attempted := none, wire := none }

/-- Source lines 207-210, `handleStopOrReset`: unconditionally pass
`stop_debate` to `sendMessageToWs`; no local state is touched. -/
def handleStopOrReset (s : ClientState) : SendResult :=
  sendMessageToWs s OutCommand.stop_debate

/-- Source line 249. -/
def canUseActionButtons (s : ClientState) : Bool :=
  s.isConnected &&
    (s.currentSessionState == SessionState.automated_debate ||
     s.currentSessionState == SessionState.user_interaction)

/-- Source line 250: no transcript entry from a speaker other than
`"User"` and `"System"`. -/
def noAiMessagesYet (s : ClientState) : Bool :=
  (s.messages.filter
    (fun m => m.speaker != "User" && m.speaker != "System")).length == 0

/-- The regenerate intent as reachable through the UI: the button
(source lines 369-374) is `disabled` unless `canUseActionButtons` holds and
`noAiMessagesYet` is false, and its click handler is `handleRegenerate`. -/
def regenerateLastTurn (s : ClientState) : SendResult :=
  if canUseActionButtons s && !noAiMessagesYet s then handleRegenerate s
  else { state := s, attempted := none, wire := none }

/-- The apostrophe character (code point 39), one of the five characters
the fallback branch of `parseMarkdown` touches. -/
def singleQuoteChar : Char := Char.ofNat 39

/-- Character-level model of the JS single-character global regex replace
`s.replace(/c/g, r)`: every occurrence of the character `c` becomes the
string `r`. -/
def replaceAllChar (s : String) (c : Char) (r : String) : String :=
  String.join (s.data.map (fun d => if d = c then r else String.singleton d))

/-- The `catch` branch of `parseMarkdown` (source lines 42-52), verbatim:
each of the five `.replace` calls replaces the character with **itself**
(`/&/g ↦ "&"`, `/</g ↦ "<"`, `/>/g ↦ ">"`, `/"/g ↦ "\""`, `/'/g ↦ "'"`),
and only the final call rewrites newlines to `<br>`. -/
def fallbackEscape (markdownText : String) : String :=
  let e1 := replaceAllChar markdownText '&' "&"
  let e2 := replaceAllChar e1 '<' "<"
  let e3 := replaceAllChar e2 '>' ">"
  let e4 := replaceAllChar e3 '"' "\""
  let escapedText := replaceAllChar e4 singleQuoteChar "'"
  replaceAllChar escapedText '\n' "<br>"

/-- Source lines 25-53, `parseMarkdown`.  The collaborators `marked.parse`
and `DOMPurify.sanitize` are parameters; a thrown exception is modelled as
`none`.  The `none` input models a null/undefined `markdownText` (the JS
falsy guard `!markdownText` also catches the empty string).  The browser
branch (`typeof window !== 'undefined'`) is the one modelled. -/
def parseMarkdown (parse sanitize : String → Option String)
    (markdownText : Option String) : String :=
  match markdownText with
  | none => ""
  | some t =>
    if t = "" then ""
    else
      match parse t with
      | some rawHtml =>
        match sanitize rawHtml with
        | some safe => safe
        | none => fallbackEscape t
      | none => fallbackEscape t

/-- Processing a whole inbound event sequence from the initial state
(`ws.onmessage` applied in arrival order). -/
def processEvents (evs : List ChatMessageFromServer) : ClientState :=
  evs.foldl wsOnMessage initialState

/-! ## Theorems -/

/-- C5: on every channel close, from any state, the connection status
becomes disconnected, the thinking set becomes empty, the session phase
(and the transcript and topic) are left unchanged, and the reconnection
attempt is scheduled after the fixed 3000 ms delay.  `wsOnClose` takes no
attempt counter, so the scheduled delay is the same 3000 ms after every
close, however many closes preceded it: there is no backoff and no cap. -/
theorem claim_C5_onclose_frame (s : ClientState) :
    (wsOnClose s).1.isConnected = false ∧
    (wsOnClose s).1.thinkingSpeakers = ∅ ∧
    (wsOnClose s).1.currentSessionState = s.currentSessionState ∧
    (wsOnClose s).1.messages = s.messages ∧
    (wsOnClose s).1.debateTopicInput = s.debateTopicInput ∧
    (wsOnClose s).2 = 3000 := by
  simp [wsOnClose]

/-- C10: for empty, null, or undefined input the renderer returns the
empty string; the result is the same for every parser and sanitizer, so
neither is consulted. -/
theorem claim_C10_blank_input_renders_empty
    (parse sanitize : String → Option String) (markdownText : Option String)
    (h : markdownText = none ∨ markdownText = some "") :
    parseMarkdown parse sanitize markdownText = "" := by
  rcases h with h | h <;> subst h <;> simp [parseMarkdown]

/-- Witness for C10 at the concrete empty-string input. -/
theorem claim_C10_witness :
    parseMarkdown (fun t => some t) (fun t => some t) (some "") = "" :=
  claim_C10_blank_input_renders_empty _ _ _ (Or.inr rfl)

/-- C6: `handleStartDebate` with a blank topic, or with no persona
selected, stops before the send call, surfaces the validation error, and
changes nothing but the error banner; with a non-blank topic and a
non-empty persona selection it clears the transcript and the thinking set,
leaves the phase and topic untouched, and passes a `start_debate` command
carrying the topic and the selected persona ids to `sendMessageToWs`,
which writes it to the wire when connected. -/
theorem claim_C6_start_debate_validation (s : ClientState) :
    (isBlank s.debateTopicInput = true →
      handleStartDebate s =
        { state := { s with showError := some "Please enter a debate topic." },
          attempted := none, wire := none }) ∧
    (isBlank s.debateTopicInput = false → s.selectedPersonaIds = [] →
      handleStartDebate s =
        { state := { s with showError := some "Please select at least one persona." },
          attempted := none, wire := none }) ∧
    (isBlank s.debateTopicInput = false → s.selectedPersonaIds ≠ [] →
      (handleStartDebate s).state.messages = [] ∧
      (handleStartDebate s).state.thinkingSpeakers = ∅ ∧
      (handleStartDebate s).state.currentSessionState = s.currentSessionState ∧
      (handleStartDebate s).state.debateTopicInput = s.debateTopicInput ∧
      (handleStartDebate s).attempted =
        some (OutCommand.start_debate s.debateTopicInput s.selectedPersonaIds) ∧
      (s.isConnected = true →
        (handleStartDebate s).wire =
          some (OutCommand.start_debate s.debateTopicInput s.selectedPersonaIds))) := by
  refine ⟨fun hb => ?_, fun hb hp => ?_, fun hb hp => ?_⟩
  · simp [handleStartDebate, hb]
  · simp [handleStartDebate, hb, hp]
  · have hlen : ¬ s.selectedPersonaIds.length < 1 := by
      simpa [Nat.lt_one_iff, List.length_eq_zero] using hp
    by_cases hc : s.isConnected = true <;>
      simp [handleStartDebate, hb, hlen, sendMessageToWs, hc]

/-- Witness for C6: the valid branch at a concrete connected state. -/
theorem claim_C6_witness :
    (handleStartDebate
        { initialState with isConnected := true, debateTopicInput := "topic" }).attempted =
      some (OutCommand.start_debate "topic" ["nilm_expert", "data_scientist", "moderator"]) := by
  have h := (claim_C6_start_debate_validation
      { initialState with isConnected := true, debateTopicInput := "topic" }).2.2
    (by decide) (by decide)
  simpa [initialState, availablePersonas] using h.2.2.2.2.1

/-- C4: `handleSendMessage` on blank input performs no send attempt and no
transcript append; outside the two active phases it likewise attempts no
send and appends nothing (only the error banner changes); and whenever it
does pass a command to `sendMessageToWs`, that command is `user_query`
with the input text in `user_interaction` and `user_interjection` in
`automated_debate`, and exactly the locally synthesized message with
speaker `"User"` is appended. -/
theorem claim_C4_send_user_message (s : ClientState) (now : Nat) (nowIso : String) :
    (isBlank s.userInput = true →
      handleSendMessage s now nowIso = { state := s, attempted := none, wire := none }) ∧
    (s.currentSessionState ≠ SessionState.automated_debate ∧
     s.currentSessionState ≠ SessionState.user_interaction →
      (handleSendMessage s now nowIso).state.messages = s.messages ∧
      (handleSendMessage s now nowIso).attempted = none ∧
      (handleSendMessage s now nowIso).wire = none) ∧
    (∀ c, (handleSendMessage s now nowIso).attempted = some c →
      (s.currentSessionState = SessionState.user_interaction →
        c = OutCommand.user_query s.userInput) ∧
      (s.currentSessionState = SessionState.automated_debate →
        c = OutCommand.user_interjection s.userInput) ∧
      (handleSendMessage s now nowIso).state.messages =
        s.messages ++ [localUserMessage s.userInput now nowIso] ∧
      (localUserMessage s.userInput now nowIso).speaker = "User") := by
  refine ⟨fun hb => ?_, fun hph => ?_, fun c hc => ?_⟩
  · simp [handleSendMessage, hb]
  · by_cases hb : isBlank s.userInput = true <;>
      simp [handleSendMessage, hb, hph]
  · by_cases hb : isBlank s.userInput = true
    · simp [handleSendMessage, hb] at hc
    · by_cases hph : s.currentSessionState ≠ SessionState.automated_debate ∧
          s.currentSessionState ≠ SessionState.user_interaction
      · simp [handleSendMessage, hb, hph] at hc
      · by_cases hui : s.currentSessionState = SessionState.user_interaction <;>
          by_cases hconn : s.isConnected = true <;>
          simp [handleSendMessage, hb, hph, hui, sendMessageToWs, hconn,
            localUserMessage] at hc ⊢ <;>
          simp_all

/-- Witness for C4: a concrete connected `user_interaction` send. -/
theorem claim_C4_witness :
    (handleSendMessage
        { initialState with
          isConnected := true,
          currentSessionState := SessionState.user_interaction,
          userInput := "hi" } 42 "ts").state.messages =
      [localUserMessage "hi" 42 "ts"] := by
  have h := (claim_C4_send_user_message
      { initialState with
        isConnected := true,
        currentSessionState := SessionState.user_interaction,
        userInput := "hi" } 42 "ts").2.2
    (OutCommand.user_query "hi") (by decide)
  simpa [initialState] using h.2.2.1

/-- Counterexample to C3 as stated: with the connection down, the phase at
`user_interaction` and non-blank input, `handleSendMessage` writes nothing
to the wire and surfaces the connection error — yet it still appends the
locally synthesized user message to the transcript, so the rejected intent
is not free of further state mutation. -/
theorem claim_C3_counterexample :
    (handleSendMessage
        { initialState with
          currentSessionState := SessionState.user_interaction,
          userInput := "hi" } 42 "ts").wire = none ∧
    (handleSendMessage
        { initialState with
          currentSessionState := SessionState.user_interaction,
          userInput := "hi" } 42 "ts").state.showError =
      some "Not connected. Please wait or check connection." ∧
    (handleSendMessage
        { initialState with
          currentSessionState := SessionState.user_interaction,
          userInput := "hi" } 42 "ts").state.messages =
      [localUserMessage "hi" 42 "ts"] := by
  decide

/-- C3 as amended: whenever the connection status is not connected, none of
the five command intents writes a command to the wire, and the attempted
send surfaces the local connection error; the intent is dropped rather than
queued.  However the rejection is not free of other state mutation: a
rejected `handleSendMessage` (non-blank input, active phase) still appends
its locally synthesized user message, and a rejected `handleStartDebate`
(valid inputs) still clears the transcript and the thinking set. -/
theorem claim_C3_disconnected_rejection (s : ClientState) (now : Nat) (nowIso : String)
    (h : s.isConnected = false) :
    (handleStartDebate s).wire = none ∧
    (handleSendMessage s now nowIso).wire = none ∧
    (handleRegenerate s).wire = none ∧
    (handleEarlyPauseOrSummarize s).wire = none ∧
    (handleStopOrReset s).wire = none ∧
    (handleStopOrReset s).state.showError =
      some "Not connected. Please wait or check connection." ∧
    (isBlank s.userInput = false → s.currentSessionState = SessionState.user_interaction →
      (handleSendMessage s now nowIso).state.messages =
        s.messages ++ [localUserMessage s.userInput now nowIso]) ∧
    (isBlank s.debateTopicInput = false → s.selectedPersonaIds ≠ [] →
      (handleStartDebate s).state.messages = [] ∧
      (handleStartDebate s).state.thinkingSpeakers = ∅) := by
  have hws : ∀ cmd, sendMessageToWs s cmd =
      { state := { s with showError := some "Not connected. Please wait or check connection." },
        attempted := some cmd, wire := none } := by
    intro cmd; simp [sendMessageToWs, h]
  refine ⟨?_, ?_, ?_, ?_, ?_, ?_, ?_, ?_⟩
  · unfold handleStartDebate
    split
    · rfl
    · split
      · rfl
      · simp [sendMessageToWs, h]
  · unfold handleSendMessage
    split
    · rfl
    · split
      · rfl
      · simp [hws]
  · unfold handleRegenerate
    split
    · rfl
    · simp [hws]
  · unfold handleEarlyPauseOrSummarize
    split
    · simp [hws]
    · split
      · simp [hws]
      · rfl
  · simp [handleStopOrReset, hws]
  · simp [handleStopOrReset, hws]
  · intro hb hph
    simp [handleSendMessage, hb, hph, hws, localUserMessage]
  · intro hb hp
    have hlen : ¬ s.selectedPersonaIds.length < 1 := by
      simpa [Nat.lt_one_iff, List.length_eq_zero] using hp
    simp [handleStartDebate, hb, hlen, sendMessageToWs, h]

/-- Witness for the amended C3 at a concrete disconnected state. -/
theorem claim_C3_witness :
    (handleStopOrReset
        { initialState with currentSessionState := SessionState.automated_debate }).wire =
      none := by
  have h := claim_C3_disconnected_rejection
    { initialState with currentSessionState := SessionState.automated_debate } 0 "" (by decide)
  exact h.2.2.2.2.1

/-- C7: the regenerate intent, as dispatchable through the UI (the button
is disabled unless the phase is active, the client connected, and some
non-User non-System transcript entry exists; its handler re-checks the
phase), does nothing — no attempted send, no wire write, no state change —
unless the phase is `automated_debate` or `user_interaction` and the
transcript holds at least one entry whose speaker is neither `"User"` nor
`"System"`; when all of that holds and the client is connected, it passes
`regenerate_last_ai_turn` to `sendMessageToWs`. -/
theorem claim_C7_regenerate_guard (s : ClientState) :
    ((s.currentSessionState ≠ SessionState.automated_debate ∧
      s.currentSessionState ≠ SessionState.user_interaction) ∨ noAiMessagesYet s = true →
      regenerateLastTurn s = { state := s, attempted := none, wire := none }) ∧
    (s.isConnected = true →
     (s.currentSessionState = SessionState.automated_debate ∨
      s.currentSessionState = SessionState.user_interaction) →
     noAiMessagesYet s = false →
      (regenerateLastTurn s).attempted = some OutCommand.regenerate_last_ai_turn ∧
      (regenerateLastTurn s).wire = some OutCommand.regenerate_last_ai_turn) := by
  constructor
  · rintro (⟨h1, h2⟩ | h)
    · simp [regenerateLastTurn, canUseActionButtons, h1, h2]
    · simp [regenerateLastTurn, h]
  · intro hc hph hno
    rcases hph with hph | hph <;>
      simp [regenerateLastTurn, canUseActionButtons, hc, hph, hno,
        handleRegenerate, sendMessageToWs]

/-- Witness for C7: the spec scenario — a transcript holding only a System
message and a User message, during `user_interaction` on a connected
client — produces a no-op. -/
theorem claim_C7_witness :
    regenerateLastTurn
        { initialState with
          isConnected := true,
          currentSessionState := SessionState.user_interaction,
          messages :=
            [ { id := "1", speaker := "System", content := "Debate started.",
                timestamp := "t1" },
              { id := "2", speaker := "User", content := "hello",
                timestamp := "t2" } ] } =
      { state :=
          { initialState with
            isConnected := true,
            currentSessionState := SessionState.user_interaction,
            messages :=
              [ { id := "1", speaker := "System", content := "Debate started.",
                  timestamp := "t1" },
                { id := "2", speaker := "User", content := "hello",
                  timestamp := "t2" } ] },
        attempted := none, wire := none } := by
  exact (claim_C7_regenerate_guard _).1 (Or.inr (by decide))

/-- The §4.2 trigger table as the spec presents it: an ordered list of
rules, each a set of alternative trigger substrings, the target phase, and
whether the stored debate topic is cleared. -/
def triggerTable : List (List String × SessionState × Bool) :=
  [ (["debate started"], (SessionState.automated_debate, false)),
    (["automated debate phase complete"], (SessionState.user_interaction, false)),
    (["generating final summary"], (SessionState.summarizing, false)),
    (["debate concluded", "session ended", "session stopped"],
      (SessionState.idle, true)) ]

/-- First-match, case-insensitive lookup of a System message content in the
ordered trigger table. -/
def lookupTrigger (content : String) : Option (SessionState × Bool) :=
  (triggerTable.find?
    (fun row => row.1.any (fun pat => strIncludes (lowerStr content) pat))).map
    (fun row => row.2)

/-- C1: for every durable inbound message, if the speaker is `"System"`
the phase and stored topic after `ws.onmessage` are exactly what the
first-match case-insensitive trigger-table lookup prescribes (the `Idle`
rule also clearing the topic, non-matching contents changing nothing), and
if the speaker is not `"System"` the phase and topic are unchanged. -/
theorem claim_C1_system_trigger_table (s : ClientState) (m : ChatMessageFromServer)
    (hdur : m.isThinking.getD false = false) :
    (m.speaker = "System" →
      ((wsOnMessage s m).currentSessionState, (wsOnMessage s m).debateTopicInput) =
        match lookupTrigger m.content with
        | some (ph, clear) => (ph, if clear then "" else s.debateTopicInput)
        | none => (s.currentSessionState, s.debateTopicInput)) ∧
    (m.speaker ≠ "System" →
      (wsOnMessage s m).currentSessionState = s.currentSessionState ∧
      (wsOnMessage s m).debateTopicInput = s.debateTopicInput) := by
  constructor
  · intro hsys
    by_cases h1 : strIncludes (lowerStr m.content) "debate started" = true
    · simp [wsOnMessage, hdur, hsys, lookupTrigger, triggerTable, List.find?, h1]
    · by_cases h2 : strIncludes (lowerStr m.content) "automated debate phase complete" = true
      · simp [wsOnMessage, hdur, hsys, lookupTrigger, triggerTable, List.find?, h1, h2]
      · by_cases h3 : strIncludes (lowerStr m.content) "generating final summary" = true
        · simp [wsOnMessage, hdur, hsys, lookupTrigger, triggerTable, List.find?, h1, h2, h3]
        · by_cases h4 : (strIncludes (lowerStr m.content) "debate concluded" ||
              strIncludes (lowerStr m.content) "session ended" ||
              strIncludes (lowerStr m.content) "session stopped") = true
          · simp only [Bool.or_eq_true] at h4
            simp [wsOnMessage, hdur, hsys, lookupTrigger, triggerTable, List.find?,
              h1, h2, h3, h4]
            rcases h4 with (h4 | h4) | h4 <;> simp [h4, wsOnMessage, hdur, hsys, h1, h2, h3]
          · simp only [Bool.or_eq_true, not_or] at h4
            obtain ⟨⟨h4a, h4b⟩, h4c⟩ := h4
            simp [wsOnMessage, hdur, hsys, lookupTrigger, triggerTable, List.find?,
              h1, h2, h3, h4a, h4b, h4c]
  · intro hsys
    simp [wsOnMessage, hdur, hsys]

/-- Witness for C1: the spec scenario — the System notice
`"Session ended unexpectedly"` drives the phase to `idle` and clears the
stored topic. -/
theorem claim_C1_witness :
    ((wsOnMessage
        { initialState with
          currentSessionState := SessionState.user_interaction,
          debateTopicInput := "energy" }
        { id := "9", speaker := "System", content := "Session ended unexpectedly",
          timestamp := "t" }).currentSessionState,
     (wsOnMessage
        { initialState with
          currentSessionState := SessionState.user_interaction,
          debateTopicInput := "energy" }
        { id := "9", speaker := "System", content := "Session ended unexpectedly",
          timestamp := "t" }).debateTopicInput) =
      (SessionState.idle, "") := by
  have h := (claim_C1_system_trigger_table
      { initialState with
        currentSessionState := SessionState.user_interaction,
        debateTopicInput := "energy" }
      { id := "9", speaker := "System", content := "Session ended unexpectedly",
        timestamp := "t" } (by decide)).1 rfl
  rw [h]
  decide

/-- Frame of `ws.onmessage` on a thinking envelope: transcript untouched,
speaker inserted into the thinking set. -/
theorem wsOnMessage_thinking_fields (s : ClientState) (e : ChatMessageFromServer)
    (h : e.isThinking.getD false = true) :
    (wsOnMessage s e).messages = s.messages ∧
    (wsOnMessage s e).thinkingSpeakers = insert e.speaker s.thinkingSpeakers := by
  simp [wsOnMessage, h]

/-- Frame of `ws.onmessage` on a durable envelope: exactly one transcript
append, speaker removed from the thinking set — in every branch of the
System trigger chain. -/
theorem wsOnMessage_durable_fields (s : ClientState) (e : ChatMessageFromServer)
    (h : e.isThinking.getD false = false) :
    (wsOnMessage s e).messages = s.messages ++ [e] ∧
    (wsOnMessage s e).thinkingSpeakers = s.thinkingSpeakers.erase e.speaker := by
  refine ⟨?_, ?_⟩ <;>
  · simp only [wsOnMessage, h, Bool.false_eq_true, if_false]
    split_ifs <;> rfl

/-- Membership in the thinking set after folding a whole event sequence
over `ws.onmessage`, for an arbitrary start state: it is decided by the
most recent event for the speaker (the first hit of `find?` on the
reversed sequence), falling back to the start state when the speaker never
occurs. -/
theorem mem_thinking_foldl (evs : List ChatMessageFromServer) (s : ClientState)
    (sp : String) :
    sp ∈ (evs.foldl wsOnMessage s).thinkingSpeakers ↔
      match evs.reverse.find? (fun e => e.speaker == sp) with
      | some e => e.isThinking.getD false = true
      | none => sp ∈ s.thinkingSpeakers := by
  induction evs generalizing s with
  | nil => simp
  | cons e rest ih =>
    rw [List.foldl_cons, ih (wsOnMessage s e), List.reverse_cons, List.find?_append]
    cases hfind : rest.reverse.find? (fun x => x.speaker == sp) with
    | some x => simp
    | none =>
      simp only [Option.none_or]
      by_cases hsp : e.speaker = sp
      · cases hth : e.isThinking.getD false with
        | true =>
          rw [(wsOnMessage_thinking_fields s e hth).2]
          simp [hsp, List.find?, hth]
        | false =>
          rw [(wsOnMessage_durable_fields s e hth).2]
          simp [hsp, List.find?, hth, Finset.mem_erase]
      · have hbeq : (e.speaker == sp) = false := by simp [hsp]
        cases hth : e.isThinking.getD false with
        | true =>
          rw [(wsOnMessage_thinking_fields s e hth).2]
          simp [List.find?, hbeq, Finset.mem_insert, Ne.symm hsp]
        | false =>
          rw [(wsOnMessage_durable_fields s e hth).2]
          simp [List.find?, hbeq, Finset.mem_erase, Ne.symm hsp]

/-- C2: a thinking envelope adds its speaker to the thinking set and
appends nothing; a durable envelope removes its speaker (idempotently) and
appends exactly one transcript entry; and over any inbound sequence from
the initial state, a speaker is in the thinking set iff the most recent
event for that speaker was a thinking event (so no durable message for
that speaker followed it). -/
theorem claim_C2_event_classifier :
    (∀ (s : ClientState) (e : ChatMessageFromServer), e.isThinking.getD false = true →
      (wsOnMessage s e).messages = s.messages ∧
      (wsOnMessage s e).thinkingSpeakers = insert e.speaker s.thinkingSpeakers) ∧
    (∀ (s : ClientState) (e : ChatMessageFromServer), e.isThinking.getD false = false →
      (wsOnMessage s e).messages = s.messages ++ [e] ∧
      (wsOnMessage s e).thinkingSpeakers = s.thinkingSpeakers.erase e.speaker) ∧
    (∀ (evs : List ChatMessageFromServer) (sp : String),
      sp ∈ (processEvents evs).thinkingSpeakers ↔
        ∃ e, evs.reverse.find? (fun x => x.speaker == sp) = some e ∧
             e.isThinking.getD false = true) := by
  refine ⟨wsOnMessage_thinking_fields, wsOnMessage_durable_fields, ?_⟩
  intro evs sp
  rw [processEvents, mem_thinking_foldl]
  cases hfind : evs.reverse.find? (fun x => x.speaker == sp) with
  | some x => simp
  | none => simp [initialState]

/-- Witness for C2: one thinking envelope from `"Alice"` leaves the
transcript empty and puts `"Alice"` in the thinking set. -/
theorem claim_C2_witness :
    (wsOnMessage initialState
        { id := "1", speaker := "Alice", content := "", timestamp := "",
          isThinking := some true }).messages = [] ∧
    "Alice" ∈ (wsOnMessage initialState
        { id := "1", speaker := "Alice", content := "", timestamp := "",
          isThinking := some true }).thinkingSpeakers := by
  have h := claim_C2_event_classifier.1 initialState
    { id := "1", speaker := "Alice", content := "", timestamp := "",
      isThinking := some true } (by decide)
  exact ⟨by rw [h.1]; rfl, by rw [h.2]; simp⟩

/-- C8 evaluated at failing inputs: when the parse step throws, the
fallback leaves every one of the HTML-significant characters verbatim in
the output (each of the five replace calls substitutes the character for
itself) and only converts line breaks to `<br>` — it does not produce an
escaped form of `<`, `>`, `&` or the quote. -/
theorem claim_C8_fallback_does_not_escape :
    parseMarkdown (fun _ => none) (fun r => some r) (some "<b>\n") = "<b><br>" ∧
    parseMarkdown (fun _ => none) (fun r => some r) (some "&<>\"") = "&<>\"" := by
  decide

/-- Counterexample to C9 as stated: two `handleSendMessage` invocations
falling in the same millisecond (`Date.now()` reads 42 both times) append
two distinct transcript entries that carry the same id `"local_42"`. -/
theorem claim_C9_counterexample :
    (handleSendMessage
        { (handleSendMessage
            { initialState with
              isConnected := true,
              currentSessionState := SessionState.user_interaction,
              userInput := "hello" } 42 "t1").state with
          userInput := "again" } 42 "t2").state.messages =
      [ { id := "local_42", speaker := "User", content := "hello", timestamp := "t1" },
        { id := "local_42", speaker := "User", content := "again", timestamp := "t2" } ] ∧
    ({ id := "local_42", speaker := "User", content := "hello",
        timestamp := "t1" } : ChatMessageFromServer) ≠
      { id := "local_42", speaker := "User", content := "again", timestamp := "t2" } := by
  decide

/-- The decimal digit characters of `n`, most significant first (the
character list underlying `Nat.repr`). -/
def decimalChars (n : Nat) : List Char :=
  if n = 0 then ['0'] else ((Nat.digits 10 n).reverse.map Nat.digitChar)

theorem toDigitsCore_eq_decimalChars :
    ∀ (f n : Nat) (acc : List Char), n < f →
      Nat.toDigitsCore 10 f n acc = decimalChars n ++ acc := by
  intro f
  induction f with
  | zero => intro n acc h; exact absurd h (Nat.not_lt_zero n)
  | succ f ih =>
    intro n acc h
    simp only [Nat.toDigitsCore]
    by_cases h0 : n / 10 = 0
    · rw [if_pos h0]
      have hn10 : n < 10 := by omega
      by_cases hn : n = 0
      · subst hn
        simp [decimalChars]
        decide
      · rw [decimalChars, if_neg hn,
          Nat.digits_def' (by norm_num : (1:ℕ) < 10) (Nat.pos_of_ne_zero hn), h0]
        simp [Nat.mod_eq_of_lt hn10]
    · rw [if_neg h0]
      have hn : n ≠ 0 := by omega
      have hlt : n / 10 < f := by
        have := Nat.div_lt_self (Nat.pos_of_ne_zero hn) (by norm_num : (1:ℕ) < 10)
        omega
      have hkey : decimalChars n = decimalChars (n / 10) ++ [Nat.digitChar (n % 10)] := by
        rw [decimalChars, if_neg hn, decimalChars, if_neg h0,
          Nat.digits_def' (by norm_num : (1:ℕ) < 10) (Nat.pos_of_ne_zero hn)]
        simp
      rw [ih (n / 10) (Nat.digitChar (n % 10) :: acc) hlt, hkey]
      simp

/-- The rendering `Nat.repr` produces exactly the decimal character list. -/
theorem natRepr_eq_decimalChars (n : Nat) :
    Nat.repr n = (decimalChars n).asString := by
  rw [Nat.repr, Nat.toDigits,
    toDigitsCore_eq_decimalChars (n + 1) n [] (Nat.lt_succ_self n), List.append_nil]

/-- Decoding a decimal character list back to a number (the obvious
left fold). -/
def decodeDecimal (l : List Char) : Nat :=
  l.foldl (fun acc c => acc * 10 + (c.toNat - 48)) 0

theorem digitChar_decode : ∀ d, d < 10 → (Nat.digitChar d).toNat - 48 = d := by decide

theorem decode_foldl_digits (n : Nat) : ∀ acc : Nat,
    List.foldl (fun acc c => acc * 10 + (c.toNat - 48)) acc
      ((Nat.digits 10 n).reverse.map Nat.digitChar) =
      acc * 10 ^ (Nat.digits 10 n).length + n := by
  induction n using Nat.strong_induction_on with
  | _ n ih =>
    intro acc
    by_cases hn : n = 0
    · subst hn; simp
    · rw [Nat.digits_def' (by norm_num : (1:ℕ) < 10) (Nat.pos_of_ne_zero hn)]
      simp only [List.reverse_cons, List.map_append, List.map_cons, List.map_nil,
        List.foldl_append, List.foldl_cons, List.foldl_nil, List.length_cons]
      rw [ih (n / 10) (Nat.div_lt_self (Nat.pos_of_ne_zero hn) (by norm_num)) acc]
      rw [digitChar_decode (n % 10) (Nat.mod_lt n (by norm_num))]
      rw [pow_succ]
      calc (acc * 10 ^ (Nat.digits 10 (n / 10)).length + n / 10) * 10 + n % 10
          = acc * (10 ^ (Nat.digits 10 (n / 10)).length * 10) +
              (10 * (n / 10) + n % 10) := by ring
        _ = acc * (10 ^ (Nat.digits 10 (n / 10)).length * 10) + n := by
              rw [Nat.div_add_mod]

/-- Round trip: decoding the decimal characters of `n` gives back `n`. -/
theorem decodeDecimal_decimalChars (n : Nat) : decodeDecimal (decimalChars n) = n := by
  by_cases hn : n = 0
  · subst hn; decide
  · rw [decimalChars, if_neg hn]
    simpa [decodeDecimal] using decode_foldl_digits n 0

/-- Decimal rendering is injective. -/
theorem natRepr_injective (m n : Nat) (h : Nat.repr m = Nat.repr n) : m = n := by
  rw [natRepr_eq_decimalChars, natRepr_eq_decimalChars] at h
  have hchars : decimalChars m = decimalChars n := congrArg String.data h
  calc m = decodeDecimal (decimalChars m) := (decodeDecimal_decimalChars m).symm
    _ = decodeDecimal (decimalChars n) := by rw [hchars]
    _ = n := decodeDecimal_decimalChars n

/-- C9 as amended: the client does not enforce transcript-wide id
uniqueness — two invocations of `handleSendMessage` in the same
millisecond synthesize the same id — but any two invocations that observe
distinct `Date.now()` values append locally synthesized user messages with
distinct ids. -/
theorem claim_C9_distinct_times_distinct_ids (s1 s2 : ClientState)
    (now1 now2 : Nat) (iso1 iso2 : String)
    (hb1 : isBlank s1.userInput = false)
    (hb2 : isBlank s2.userInput = false)
    (hp1 : s1.currentSessionState = SessionState.automated_debate ∨
           s1.currentSessionState = SessionState.user_interaction)
    (hp2 : s2.currentSessionState = SessionState.automated_debate ∨
           s2.currentSessionState = SessionState.user_interaction)
    (hne : now1 ≠ now2) :
    (handleSendMessage s1 now1 iso1).state.messages =
      s1.messages ++ [localUserMessage s1.userInput now1 iso1] ∧
    (handleSendMessage s2 now2 iso2).state.messages =
      s2.messages ++ [localUserMessage s2.userInput now2 iso2] ∧
    (localUserMessage s1.userInput now1 iso1).id ≠
      (localUserMessage s2.userInput now2 iso2).id := by
  have happend : ∀ (s : ClientState) (now : Nat) (iso : String),
      isBlank s.userInput = false →
      (s.currentSessionState = SessionState.automated_debate ∨
       s.currentSessionState = SessionState.user_interaction) →
      (handleSendMessage s now iso).state.messages =
        s.messages ++ [localUserMessage s.userInput now iso] := by
    intro s now iso hb hp
    have hph : ¬ (s.currentSessionState ≠ SessionState.automated_debate ∧
        s.currentSessionState ≠ SessionState.user_interaction) := by
      rcases hp with hp | hp <;> simp [hp]
    by_cases hc : s.isConnected = true <;>
      simp [handleSendMessage, hb, hph, sendMessageToWs, hc]
  refine ⟨happend s1 now1 iso1 hb1 hp1, happend s2 now2 iso2 hb2 hp2, ?_⟩
  intro hid
  apply hne
  apply natRepr_injective
  have := congrArg String.data hid
  simp only [localUserMessage, String.data_append] at this
  exact congrArg List.asString (List.append_cancel_left this)

/-- Witness for the amended C9: two sends at milliseconds 1 and 2. -/
theorem claim_C9_witness :
    (localUserMessage "a" 1 "i1").id ≠ (localUserMessage "b" 2 "i2").id := by
  have h := claim_C9_distinct_times_distinct_ids
    { initialState with
      currentSessionState := SessionState.automated_debate,
      userInput := "a" }
    { initialState with
      currentSessionState := SessionState.automated_debate,
      userInput := "b" }
    1 2 "i1" "i2" (by decide) (by decide) (Or.inl rfl) (Or.inl rfl) (by decide)
  simpa using h.2.2
